import Mathlib

/-!
Shallow embedding of `main.go` of the gnosis-tx repository: a small Go
program that fetches a Gnosis Safe's nonce and a gas estimate from the
Safe coordination service, builds the EIP-712-style authorization digest,
signs it, and submits the multisig transaction proposal.

External effects (HTTP transport, the go-ethereum hashing/signing
primitives) are modelled as explicit inputs; pure Go code (JSON decoding
per `encoding/json` zero-value semantics, `strconv.ParseInt`, the byte
concatenation building the digest, recovery-id normalization, hex
encoding, control flow of `sendTransaction` and `sendGnosisTx`) is
translated directly.
-/

namespace GnosisTxCore

/-- Go `error` values produced or propagated by this program.  Each
constructor records which primitive produced the error, with its message. -/
inductive GoError where
  /-- transport-level failure from `http.Get` / `http.Post` -/
  | transport (msg : String)
  /-- failure of `ioutil.ReadAll` on a response body -/
  | readBody (msg : String)
  /-- failure of `json.Unmarshal` -/
  | unmarshal (msg : String)
  /-- failure of `strconv.ParseInt` -/
  | parseIntErr (msg : String)
  /-- failure of `crypto.HexToECDSA` -/
  | hexKey (msg : String)
  /-- failure of `crypto.Sign` -/
  | signFailure (msg : String)
  /-- failure of `typedData.HashStruct` -/
  | hashStructErr (msg : String)
  /-- an error built by `errors.New` (the rejection message in `sendGnosisTx`) -/
  | errorsNew (msg : String)
deriving DecidableEq, Repr

/-- JSON values (numbers restricted to integers, which is all the decoded
schemas accept without error anyway). -/
inductive Json where
  | null
  | bool (b : Bool)
  | num (n : Int)
  | str (s : String)
  | arr (elems : List Json)
  | obj (fields : List (String × Json))

/-- ASCII case folding of one character ('A'..'Z' mapped to lower case).
`encoding/json` matches JSON keys to struct field names preferring an
exact match but also accepting a match under Unicode simple case folding
(`strings.EqualFold`); on ASCII strings that folding is exactly this
per-character ASCII folding, and the declared field tags of this program
are all ASCII.  (A non-ASCII key can fold-match an ASCII tag only through
the exotic fold pairs such as U+017F/'s'; the theorems quantifying over
arbitrary object keys therefore restrict keys to ASCII.) -/
def foldChar (c : Char) : Char :=
  if 'A' ≤ c && c ≤ 'Z' then Char.ofNat (c.toNat + 32) else c

/-- ASCII case folding of a key. -/
def foldKey (s : String) : String := String.mk (s.data.map foldChar)

/-- The values of all object entries whose key matches the declared field
tag `k` under case-insensitive matching, in object order.  Since the tags
of each struct here are pairwise distinct under folding, every JSON key
resolves to at most one field, and `encoding/json` decodes each matching
occurrence into that field in order of appearance (so the last one wins,
and a type mismatch at any occurrence is an error). -/
def matchingValues (fields : List (String × Json)) (k : String) : List Json :=
  (fields.filter (fun p => foldKey p.1 == foldKey k)).map Prod.snd

/-- `c` is an ASCII character. -/
def asciiChar (c : Char) : Bool := c.toNat < 128

/-- Every key of the object is ASCII (the range on which the model's
folding agrees exactly with Go's). -/
def asciiKeys (fields : List (String × Json)) : Bool :=
  fields.all fun p => p.1.data.all asciiChar

/-- `encoding/json` decoding of one occurrence of an `int64` field holding
`cur`: JSON `null` has no effect, an integer number in `int64` range
overwrites, anything else is an unmarshal type error. -/
def decInt64One (k : String) (cur : Int) (j : Json) : Except GoError Int :=
  match j with
  | .null => .ok cur
  | .num n =>
      if -(2 ^ 63) ≤ n ∧ n < 2 ^ 63 then .ok n
      else .error (.unmarshal ("number out of int64 range in field " ++ k))
  | _ => .error (.unmarshal ("cannot unmarshal into int64 field " ++ k))

/-- `encoding/json` decoding of a Go `int64` struct field with tag `k`:
start from the zero value 0 and decode every matching occurrence in
object order. -/
def decInt64Field (fields : List (String × Json)) (k : String) : Except GoError Int :=
  (matchingValues fields k).foldlM (decInt64One k) 0

/-- `encoding/json` decoding of one occurrence of a `string` field holding
`cur`: `null` has no effect, a JSON string overwrites, anything else is an
unmarshal type error. -/
def decStringOne (k : String) (cur : String) (j : Json) : Except GoError String :=
  match j with
  | .null => .ok cur
  | .str s => .ok s
  | _ => .error (.unmarshal ("cannot unmarshal into string field " ++ k))

/-- `encoding/json` decoding of a Go `string` struct field with tag `k`:
start from the zero value "" and decode every matching occurrence in
object order. -/
def decStringField (fields : List (String × Json)) (k : String) : Except GoError String :=
  (matchingValues fields k).foldlM (decStringOne k) ""

/-- `encoding/json` decoding of one element of a `[]string`. -/
def decStringElem (j : Json) : Except GoError String :=
  match j with
  | .null => .ok ""
  | .str s => .ok s
  | _ => .error (.unmarshal "cannot unmarshal into string element")

/-- `encoding/json` decoding of one occurrence of a `[]string` field:
`null` sets the slice to nil, a JSON array of strings replaces it
elementwise, anything else is an unmarshal type error. -/
def decStringArrayOne (k : String) (_cur : List String) (j : Json) :
    Except GoError (List String) :=
  match j with
  | .null => .ok []
  | .arr elems => elems.mapM decStringElem
  | _ => .error (.unmarshal ("cannot unmarshal into string array field " ++ k))

/-- `encoding/json` decoding of a Go `[]string` struct field with tag `k`:
start from nil and decode every matching occurrence in object order. -/
def decStringArrayField (fields : List (String × Json)) (k : String) :
    Except GoError (List String) :=
  (matchingValues fields k).foldlM (decStringArrayOne k) []

/-- The Go early-return-on-error pattern (`if err != nil { return nil, err }`)
as an explicit bind on `Except`. -/
def eBind {α β : Type} (x : Except GoError α) (f : α → Except GoError β) : Except GoError β :=
  match x with
  | .error e => .error e
  | .ok a => f a

/-- The Go struct `safeNonceResponse` (decoded body of the safe-info GET). -/
structure SafeNonceResponse where
  address : String
  nonce : Int
  threshold : Int
  owners : List String
  masterCopy : String
  modules : List String
  fallbackHandler : String
  guard : String
  version : String
deriving DecidableEq, Repr

/-- `json.Unmarshal(body, &safeNonceResponse)`: top-level `null` is a no-op
leaving every field at its zero value; a top-level object decodes each
declared field (unknown keys are ignored); any other top-level value is a
type error. -/
def unmarshalSafeNonceResponse (j : Json) : Except GoError SafeNonceResponse :=
  match j with
  | .null => .ok ⟨"", 0, 0, [], "", [], "", "", ""⟩
  | .obj fields =>
      eBind (decStringField fields "address") fun address =>
      eBind (decInt64Field fields "nonce") fun nonce =>
      eBind (decInt64Field fields "threshold") fun threshold =>
      eBind (decStringArrayField fields "owners") fun owners =>
      eBind (decStringField fields "masterCopy") fun masterCopy =>
      eBind (decStringArrayField fields "modules") fun modules =>
      eBind (decStringField fields "fallbackHandler") fun fallbackHandler =>
      eBind (decStringField fields "guard") fun guard =>
      eBind (decStringField fields "version") fun version =>
      .ok ⟨address, nonce, threshold, owners, masterCopy, modules, fallbackHandler, guard, version⟩
  | _ => .error (.unmarshal "cannot unmarshal non-object into safeNonceResponse")

/-- The Go struct `gasEstimationResponse` (decoded body of the estimate POST). -/
structure GasEstimationResponse where
  safeTxGas : String
  baseGas : String
  dataGas : String
  operationalGas : String
  gasPrice : String
  lastUsedNonce : Int
  gasToken : String
  refundReceiver : String
deriving DecidableEq, Repr

/-- `json.Unmarshal(body, &gasEstimationResponse)`, with the same
`encoding/json` semantics as `unmarshalSafeNonceResponse`. -/
def unmarshalGasEstimationResponse (j : Json) : Except GoError GasEstimationResponse :=
  match j with
  | .null => .ok ⟨"", "", "", "", "", 0, "", ""⟩
  | .obj fields =>
      eBind (decStringField fields "safeTxGas") fun safeTxGas =>
      eBind (decStringField fields "baseGas") fun baseGas =>
      eBind (decStringField fields "dataGas") fun dataGas =>
      eBind (decStringField fields "operationalGas") fun operationalGas =>
      eBind (decStringField fields "gasPrice") fun gasPrice =>
      eBind (decInt64Field fields "lastUsedNonce") fun lastUsedNonce =>
      eBind (decStringField fields "gasToken") fun gasToken =>
      eBind (decStringField fields "refundReceiver") fun refundReceiver =>
      .ok ⟨safeTxGas, baseGas, dataGas, operationalGas, gasPrice, lastUsedNonce, gasToken, refundReceiver⟩
  | _ => .error (.unmarshal "cannot unmarshal non-object into gasEstimationResponse")

/-- `json.Unmarshal(body, &gnosisTxErrResponse)`: only the `nonFieldErrors`
`[]string` field is declared. -/
def unmarshalGnosisTxErr (j : Json) : Except GoError (List String) :=
  match j with
  | .null => .ok []
  | .obj fields => decStringArrayField fields "nonFieldErrors"
  | _ => .error (.unmarshal "cannot unmarshal non-object into gnosisTxErrResponse")

/-- A response body as handed to `json.Unmarshal`: either syntactically
valid JSON (with its parse) or not JSON at all. -/
inductive Body where
  | json (j : Json)
  | notJson (raw : String)

/-- Decoding a raw body: a non-JSON body is a `json.Unmarshal` syntax error. -/
def unmarshalBody {α : Type} (dec : Json → Except GoError α) : Body → Except GoError α
  | .json j => dec j
  | .notJson _ => .error (.unmarshal "invalid character in JSON input")

/-- An HTTP response as this program observes it: the status code, and the
outcome of `ioutil.ReadAll` on its body. -/
structure HttpResponse where
  statusCode : Nat
  body : Except GoError Body

/-- `Char` is a decimal digit. -/
def isDecDigit (c : Char) : Bool := '0' ≤ c && c ≤ '9'

/-- Accumulate decimal digits into a natural number. -/
def digitsToNat (cs : List Char) : Nat :=
  cs.foldl (fun acc c => acc * 10 + (c.toNat - '0'.toNat)) 0

/-- Strip an optional leading sign: the digit run `strconv.ParseInt`
examines after the sign character. -/
def signDigits (c : Char) (rest : List Char) : List Char :=
  if c = '-' || c = '+' then rest else c :: rest

/-- `strconv.ParseInt(s, 10, 64)`: an optional leading sign followed by a
nonempty run of decimal digits, with an `int64` range check; empty input,
a stray sign, or any non-digit is a syntax error. -/
def parseInt64 (s : String) : Except GoError Int :=
  match s.data with
  | [] => .error (.parseIntErr "invalid syntax")
  | c :: rest =>
      let digits : List Char := signDigits c rest
      if digits.isEmpty then .error (.parseIntErr "invalid syntax")
      else if digits.all isDecDigit then
        let n : Int := (digitsToNat digits : Nat)
        let v : Int := if c = '-' then -n else n
        if -(2 ^ 63) ≤ v ∧ v < 2 ^ 63 then .ok v
        else .error (.parseIntErr "value out of range")
      else .error (.parseIntErr "invalid syntax")

/-- Syntactic validity of a base-10 integer literal as `strconv.ParseInt`
accepts it (optional sign, then one or more decimal digits). -/
def validBase10 (s : String) : Bool :=
  match s.data with
  | [] => false
  | c :: rest =>
      !(signDigits c rest).isEmpty && (signDigits c rest).all isDecDigit

/-- The constant `ZERO_ADDR` of `main.go`. -/
def ZERO_ADDR : String := "0x0000000000000000000000000000000000000000"

/-- URL of the safe-info GET performed by `getSafeNonce`. -/
def safeNonceUrl (safe : String) : String :=
  "https://safe-transaction.rinkeby.gnosis.io/api/v1/safes/" ++ safe

/-- URL of the gas-estimation POST performed by `getGasEstimation`. -/
def gasEstimationUrl (safe : String) : String :=
  "https://safe-relay.rinkeby.gnosis.io/api/v2/safes/" ++ safe ++ "/transactions/estimate/"

/-- URL of the proposal-submission POST performed by `sendGnosisTx`. -/
def gnosisTxUrl (safe : String) : String :=
  "https://safe-transaction.rinkeby.gnosis.io/api/v1/safes/" ++ safe ++ "/multisig-transactions/"

/-- `getSafeNonce`, given the outcome of its `http.Get`: propagate a
transport error, propagate a body-read error, propagate an unmarshal
error, otherwise return the decoded `nonce` field.  The HTTP status code
is never examined. -/
def getSafeNonce (resp : Except GoError HttpResponse) : Except GoError Int :=
  match resp with
  | .error e => .error e
  | .ok r =>
      match r.body with
      | .error e => .error e
      | .ok b =>
          match unmarshalBody unmarshalSafeNonceResponse b with
          | .error e => .error e
          | .ok data => .ok data.nonce

/-- The Go struct `gasEstimationRequest` built by `getGasEstimation`. -/
structure GasEstimationRequest where
  «to» : String
  value : Int
  data : Option String
  operation : Int
  gasToken : Option String
deriving DecidableEq, Repr

/-- Response handling of `getGasEstimation`: propagate transport, read and
unmarshal errors, then parse the `safeTxGas` string with
`strconv.ParseInt(_, 10, 64)`.  The HTTP status code is never examined. -/
def handleGasResponse (resp : Except GoError HttpResponse) : Except GoError Int :=
  match resp with
  | .error e => .error e
  | .ok r =>
      match r.body with
      | .error e => .error e
      | .ok b =>
          match unmarshalBody unmarshalGasEstimationResponse b with
          | .error e => .error e
          | .ok data => parseInt64 data.safeTxGas

/-- `getGasEstimation`: build the request struct exactly as `main.go` does
(`data` and `gasToken` nil, `operation` 0) and handle the response to the
POST. -/
def getGasEstimation (post : GasEstimationRequest → Except GoError HttpResponse)
    («to» : String) (value : Int) : Except GoError Int :=
  let request : GasEstimationRequest :=
    { «to» := «to», value := value, data := none, operation := 0, gasToken := none }
  handleGasResponse (post request)

/-- Lower-case hexadecimal digit. -/
def hexDigit (n : Nat) : Char :=
  if n < 10 then Char.ofNat ('0'.toNat + n) else Char.ofNat ('a'.toNat + (n - 10))

/-- Two hex characters of one byte. -/
def byteToHex (b : Nat) : List Char := [hexDigit (b / 16 % 16), hexDigit (b % 16)]

/-- `hexutil.Encode` / `common.Hash.Hex`: `0x` followed by the lower-case
hex digits of the bytes. -/
def hexEncode (bs : List Nat) : String :=
  "0x" ++ String.mk (bs.map byteToHex).flatten

/-- The go-ethereum struct `core.GnosisSafeTx` as populated by
`sendTransaction` (addresses already put through `common.HexToAddress`,
whose application is recorded by the environment's `hexToAddress`). -/
structure GnosisSafeTx where
  sender : String
  safe : String
  «to» : String
  value : Int
  gasPrice : Int
  data : List Nat
  operation : Nat
  gasToken : String
  refundReceiver : String
  baseGas : Int
  safeTxGas : Int
  nonce : Int
deriving DecidableEq, Repr

/-- The `core.GnosisSafeTx` literal of `main.go` lines 194-207. -/
def mkGnosisSafeTx (hexToAddress : String → String) (sender «to» safe : String)
    (amount safeTxGas nonce : Int) : GnosisSafeTx :=
  { sender := hexToAddress sender
    safe := hexToAddress safe
    «to» := hexToAddress «to»
    value := amount
    gasPrice := 0
    data := []
    operation := 0
    gasToken := hexToAddress ZERO_ADDR
    refundReceiver := hexToAddress ZERO_ADDR
    baseGas := 0
    safeTxGas := safeTxGas
    nonce := nonce }

/-- The byte string hashed to obtain the digest (`main.go` lines 220-222):
start from the literal `[]byte{1, 19}`, append the domain hash, append the
primary-type (message) hash. -/
def encodedTx (domainHash primaryTypeHash : List Nat) : List Nat :=
  let e := [1, 19]
  let e := e ++ domainHash
  let e := e ++ primaryTypeHash
  e

/-- Recovery-id normalization of `main.go` lines 239-241: if byte 64 of the
65-byte signature is 0 or 1, add 27 to it; otherwise leave the signature
untouched. -/
def normalizeV (signature : List Nat) : List Nat :=
  if signature.getD 64 0 = 0 ∨ signature.getD 64 0 = 1 then
    signature.set 64 (signature.getD 64 0 + 27)
  else signature

/-- The Go struct `gnosisTxRequest` (the submitted proposal). -/
structure GnosisTxRequest where
  «to» : String
  value : Int
  data : Option String
  operation : Int
  gasToken : String
  safeTxGas : Int
  baseGas : Int
  gasPrice : Int
  refundReceiver : String
  nonce : Int
  contractTransactionHash : String
  sender : String
  signature : String
  origin : Option String
deriving DecidableEq, Repr

/-- The `gnosisTxRequest` literal of `main.go` lines 132-147. -/
def mkGnosisTxRequest (sender «to» : String) (amount safeTxGas nonce : Int)
    (hash signature : String) : GnosisTxRequest :=
  { «to» := «to»
    value := amount
    data := none
    operation := 0
    gasToken := ZERO_ADDR
    safeTxGas := safeTxGas
    baseGas := 0
    gasPrice := 0
    refundReceiver := ZERO_ADDR
    nonce := nonce
    contractTransactionHash := hash
    sender := sender
    signature := signature
    origin := none }

/-- Response handling of `sendGnosisTx` (`main.go` lines 159-173): status
200 returns success before the body is ever read; on any other status the
body is read, decoded as `gnosisTxErrResponse`, and its `nonFieldErrors`
are joined with newlines into an `errors.New` error. -/
def handleSubmitResponse (resp : HttpResponse) : Except GoError Unit :=
  if resp.statusCode = 200 then .ok ()
  else
    match resp.body with
    | .error e => .error e
    | .ok b =>
        match unmarshalBody unmarshalGnosisTxErr b with
        | .error e => .error e
        | .ok msgs => .error (.errorsNew (String.intercalate "\n" msgs))

/-- `sendGnosisTx`: build the proposal struct and submit it; propagate a
transport error, otherwise handle the response. -/
def sendGnosisTx (post : GnosisTxRequest → Except GoError HttpResponse)
    (sender «to» : String) (amount safeTxGas nonce : Int)
    (hash signature : String) : Except GoError Unit :=
  let request := mkGnosisTxRequest sender «to» amount safeTxGas nonce hash signature
  match post request with
  | .error e => .error e
  | .ok resp => handleSubmitResponse resp

/-- The external primitives `sendTransaction` relies on: HTTP transport for
the three endpoints, and the go-ethereum address/hash/signature
primitives, each deterministic functions of their inputs. -/
structure Ops where
  httpGet : String → Except GoError HttpResponse
  postEstimate : String → GasEstimationRequest → Except GoError HttpResponse
  postGnosisTx : String → GnosisTxRequest → Except GoError HttpResponse
  hexToAddress : String → String
  hashStructDomain : GnosisSafeTx → Except GoError (List Nat)
  hashStructMessage : GnosisSafeTx → Except GoError (List Nat)
  keccak256 : List Nat → List Nat
  hexToECDSA : String → Except GoError Nat
  sign : List Nat → Nat → Except GoError (List Nat)

/-- The digest-building portion of `sendTransaction` (`main.go` lines
209-224): hash the domain record, hash the message record, concatenate
`{1, 19}` with the two hashes and Keccak-256 the result.  A pure function
of the transaction record and the (deterministic) hashing primitives. -/
def buildDigest (ops : Ops) (tx : GnosisSafeTx) : Except GoError (List Nat) :=
  match ops.hashStructDomain tx with
  | .error e => .error e
  | .ok domainHash =>
      match ops.hashStructMessage tx with
      | .error e => .error e
      | .ok primaryTypeHash => .ok (ops.keccak256 (encodedTx domainHash primaryTypeHash))

/-- Steps of the `sendTransaction` flow as they complete, with their
observable data; the orchestration theorems read this trace. -/
inductive Event where
  | fetchedNonce (n : Int)
  | estimatedGas (g : Int)
  | builtDigest (tx : GnosisSafeTx) (digest : List Nat)
  | signed (digest : List Nat) (rawSig : List Nat)
  | submitted (req : GnosisTxRequest)
deriving DecidableEq, Repr

/-- `sendTransaction` (`main.go` lines 176-249): fetch the nonce, estimate
gas, build the digest, parse the key and sign, normalize the recovery id,
submit.  Each failing step returns its error at once; the returned list
records the steps that completed, in order. -/
def sendTransaction (ops : Ops) (sender «to» safe : String) (amount : Int)
    (privKey : String) : Except GoError Unit × List Event :=
  match getSafeNonce (ops.httpGet (safeNonceUrl safe)) with
  | .error e => (.error e, [])
  | .ok nonce =>
      match getGasEstimation (ops.postEstimate (gasEstimationUrl safe)) «to» amount with
      | .error e => (.error e, [.fetchedNonce nonce])
      | .ok safeTxGas =>
          let tx := mkGnosisSafeTx ops.hexToAddress sender «to» safe amount safeTxGas nonce
          match buildDigest ops tx with
          | .error e => (.error e, [.fetchedNonce nonce, .estimatedGas safeTxGas])
          | .ok digest =>
              match ops.hexToECDSA privKey with
              | .error e =>
                  (.error e, [.fetchedNonce nonce, .estimatedGas safeTxGas, .builtDigest tx digest])
              | .ok key =>
                  match ops.sign digest key with
                  | .error e =>
                      (.error e, [.fetchedNonce nonce, .estimatedGas safeTxGas, .builtDigest tx digest])
                  | .ok rawSig =>
                      let signature := normalizeV rawSig
                      let req := mkGnosisTxRequest sender «to» amount safeTxGas nonce
                        (hexEncode digest) (hexEncode signature)
                      (sendGnosisTx (ops.postGnosisTx (gnosisTxUrl safe)) sender «to» amount
                          safeTxGas nonce (hexEncode digest) (hexEncode signature),
                        [.fetchedNonce nonce, .estimatedGas safeTxGas, .builtDigest tx digest,
                          .signed digest rawSig, .submitted req])

/-- HTTP success-class statuses (2xx).  This follows the spec's words
("success status"), for comparison with the code's check, which tests
equality with 200 only. -/
def specSuccessStatus (s : Nat) : Bool := 200 ≤ s && s < 300

/-- Sample domain-separator hash used by the concrete witness environment. -/
def sampleDomainHash : List Nat := List.replicate 32 1

/-- Sample message hash used by the concrete witness environment. -/
def sampleMessageHash : List Nat := List.replicate 32 2

/-- Sample raw 65-byte signature (recovery id 0) used by the witnesses. -/
def sampleRawSig : List Nat := List.replicate 64 9 ++ [0]

/-- A concrete environment on which every step succeeds: the nonce endpoint
returns `{"nonce": 5}`, the estimator returns `{"safeTxGas": "21000"}`,
submission returns status 200, and the cryptographic primitives are
concrete stand-in functions. -/
def sampleOps : Ops :=
  { httpGet := fun _ => .ok ⟨200, .ok (.json (.obj [("nonce", .num 5)]))⟩
    postEstimate := fun _ _ => .ok ⟨200, .ok (.json (.obj [("safeTxGas", .str "21000")]))⟩
    postGnosisTx := fun _ _ => .ok ⟨200, .ok (.json (.obj []))⟩
    hexToAddress := fun s => s
    hashStructDomain := fun _ => .ok sampleDomainHash
    hashStructMessage := fun _ => .ok sampleMessageHash
    keccak256 := fun bs => bs.take 32
    hexToECDSA := fun _ => .ok 1
    sign := fun _ _ => .ok sampleRawSig }

/-- `sampleOps` with a failing nonce fetch. -/
def failOps : Ops :=
  { sampleOps with httpGet := fun _ => .error (.transport "connection refused") }

/-- The transaction record `sendTransaction` builds in the sample run. -/
def sampleTx : GnosisSafeTx :=
  mkGnosisSafeTx sampleOps.hexToAddress "0xSender" "0xReceiver" "0xSafe" 1000000 21000 5

/-- The digest of the sample run. -/
def sampleDigest : List Nat :=
  sampleOps.keccak256 (encodedTx sampleDomainHash sampleMessageHash)

deriving instance DecidableEq for Except

/- ------------------------------------------------------------------ -/
/- Helper lemmas                                                      -/
/- ------------------------------------------------------------------ -/

/-- Inversion for `eBind` succeeding. -/
theorem eBind_ok {α β : Type} {x : Except GoError α} {f : α → Except GoError β} {b : β}
    (h : eBind x f = .ok b) : ∃ a, x = .ok a ∧ f a = .ok b := by
  cases x with
  | error e => exact absurd h (by simp [eBind])
  | ok a => exact ⟨a, rfl, h⟩

/-- A string that is not an optional sign followed by a nonempty digit run
makes `strconv.ParseInt` report a syntax error. -/
theorem parseInt64_syntax_error (s : String) (h : validBase10 s = false) :
    parseInt64 s = .error (.parseIntErr "invalid syntax") := by
  cases hm : s.data with
  | nil => simp [parseInt64, hm]
  | cons c rest =>
      simp only [validBase10, hm] at h
      simp only [parseInt64, hm]
      cases he : (signDigits c rest).isEmpty with
      | true => simp [he]
      | false =>
          simp only [he, Bool.not_false, Bool.true_and] at h
          simp [he, h]

/-- `strconv.ParseInt` on the literal `"21000"`. -/
theorem parseInt64_21000 : parseInt64 "21000" = .ok 21000 := by decide

/-- If a well-typed object body has no key matching `nonce` (under the
case-insensitive field matching), the decoded struct carries the zero
value 0 in its `nonce` field. -/
theorem unmarshal_nonce_absent (fields : List (String × Json)) (data : SafeNonceResponse)
    (hdec : unmarshalSafeNonceResponse (.obj fields) = .ok data)
    (habs : matchingValues fields "nonce" = []) : data.nonce = 0 := by
  simp only [unmarshalSafeNonceResponse] at hdec
  obtain ⟨address, hA, hdec⟩ := eBind_ok hdec
  obtain ⟨nonce, hN, hdec⟩ := eBind_ok hdec
  obtain ⟨threshold, hT, hdec⟩ := eBind_ok hdec
  obtain ⟨owners, hO, hdec⟩ := eBind_ok hdec
  obtain ⟨masterCopy, hM, hdec⟩ := eBind_ok hdec
  obtain ⟨modules, hMo, hdec⟩ := eBind_ok hdec
  obtain ⟨fallbackHandler, hF, hdec⟩ := eBind_ok hdec
  obtain ⟨guard, hG, hdec⟩ := eBind_ok hdec
  obtain ⟨version, hV, hdec⟩ := eBind_ok hdec
  have hn0 : nonce = 0 := by
    have hzero : decInt64Field fields "nonce" = .ok 0 := by
      simp only [decInt64Field, habs]
      rfl
    have h2 := hzero.symm.trans hN
    injection h2 with h2
    exact h2.symm
  cases hdec
  simpa using hn0

/- ------------------------------------------------------------------ -/
/- Claim theorems                                                     -/
/- ------------------------------------------------------------------ -/

/-- Claim C1: the authorization digest is the Keccak-256 hash (the
environment's `keccak256`) of the 2-byte literal `{1, 19}` followed by the
domain-separator struct hash followed by the message struct hash, in that
order. -/
theorem C1_digest_construction (ops : Ops) (tx : GnosisSafeTx)
    (domainHash primaryTypeHash : List Nat)
    (hd : ops.hashStructDomain tx = .ok domainHash)
    (hm : ops.hashStructMessage tx = .ok primaryTypeHash) :
    buildDigest ops tx = .ok (ops.keccak256 ([1, 19] ++ domainHash ++ primaryTypeHash)) := by
  simp [buildDigest, hd, hm, encodedTx]

/-- Witness for C1 on the concrete sample environment. -/
theorem C1_digest_construction_witness :
    sampleOps.hashStructDomain sampleTx = .ok sampleDomainHash ∧
    sampleOps.hashStructMessage sampleTx = .ok sampleMessageHash ∧
    buildDigest sampleOps sampleTx =
      .ok (sampleOps.keccak256 ([1, 19] ++ sampleDomainHash ++ sampleMessageHash)) :=
  ⟨rfl, rfl, C1_digest_construction sampleOps sampleTx sampleDomainHash sampleMessageHash rfl rfl⟩

/-- Claim C2: digest building is deterministic.  The embedding makes every
input of the computation an explicit argument (the hashing primitives of
`ops` and the tuple defining the transaction record); no randomness,
clock, or other ambient state is consumed, so two invocations on the same
tuple are the same term and agree definitionally. -/
theorem C2_digest_deterministic (ops : Ops) (sender «to» safe : String)
    (amount safeTxGas nonce : Int) :
    buildDigest ops (mkGnosisSafeTx ops.hexToAddress sender «to» safe amount safeTxGas nonce) =
      buildDigest ops (mkGnosisSafeTx ops.hexToAddress sender «to» safe amount safeTxGas nonce) :=
  rfl

/-- Claim C3: recovery-id normalization.  On a 65-byte signature: a raw
recovery id 0 becomes 27, raw 1 becomes 28, any other raw value leaves the
signature untouched; the length and the first 64 bytes (r and s) are never
modified. -/
theorem C3_recovery_id_normalization (sig : List Nat) (h : sig.length = 65) :
    (normalizeV sig).length = 65 ∧
    (sig.getD 64 0 = 0 → (normalizeV sig).getD 64 0 = 27) ∧
    (sig.getD 64 0 = 1 → (normalizeV sig).getD 64 0 = 28) ∧
    (sig.getD 64 0 ≠ 0 ∧ sig.getD 64 0 ≠ 1 → normalizeV sig = sig) ∧
    (∀ i : Fin 64, (normalizeV sig).getD i.val 0 = sig.getD i.val 0) := by
  have h64 : 64 < sig.length := by omega
  refine ⟨?_, ?_, ?_, ?_, ?_⟩
  · unfold normalizeV
    split <;> simp [List.length_set, h]
  · intro h0
    unfold normalizeV
    rw [if_pos (Or.inl h0), List.getD_eq_getElem?_getD,
      List.getElem?_set_eq_of_lt _ h64, h0]
    rfl
  · intro h1
    unfold normalizeV
    rw [if_pos (Or.inr h1), List.getD_eq_getElem?_getD,
      List.getElem?_set_eq_of_lt _ h64, h1]
    rfl
  · intro hne
    unfold normalizeV
    split
    · rename_i hc
      rcases hc with h0 | h1
      · exact absurd h0 hne.1
      · exact absurd h1 hne.2
    · rfl
  · intro i
    unfold normalizeV
    split
    · rw [List.getD_eq_getElem?_getD, List.getD_eq_getElem?_getD,
        List.getElem?_set_ne (by omega : (64 : Nat) ≠ i.val)]
      exact (List.getD_eq_getElem?_getD sig i.val 0).symm
    · rfl

/-- Witness for C3: the sample raw signature has length 65 and raw
recovery id 0, which the normalization maps to 27 leaving bytes 0..63
alone. -/
theorem C3_recovery_id_normalization_witness :
    (normalizeV sampleRawSig).length = 65 ∧
    (sampleRawSig.getD 64 0 = 0 → (normalizeV sampleRawSig).getD 64 0 = 27) ∧
    (sampleRawSig.getD 64 0 = 1 → (normalizeV sampleRawSig).getD 64 0 = 28) ∧
    (sampleRawSig.getD 64 0 ≠ 0 ∧ sampleRawSig.getD 64 0 ≠ 1 →
      normalizeV sampleRawSig = sampleRawSig) ∧
    (∀ i : Fin 64, (normalizeV sampleRawSig).getD i.val 0 = sampleRawSig.getD i.val 0) :=
  C3_recovery_id_normalization sampleRawSig (by decide)

/-- Claim C4: the orchestrator runs the fixed linear sequence fetch-nonce,
estimate-gas, build-digest, sign (key parse then signing primitive),
submit; a failing step makes the run return exactly that step's error,
with the completed-step trace showing that no later step was performed
and nothing was retried; when every step succeeds the run performs each
step exactly once, in order, and returns the submitter's outcome. -/
theorem C4_orchestrator_short_circuit (ops : Ops) (sender «to» safe : String)
    (amount : Int) (privKey : String) :
    (∀ e, getSafeNonce (ops.httpGet (safeNonceUrl safe)) = .error e →
      sendTransaction ops sender «to» safe amount privKey = (.error e, [])) ∧
    (∀ nonce e, getSafeNonce (ops.httpGet (safeNonceUrl safe)) = .ok nonce →
      getGasEstimation (ops.postEstimate (gasEstimationUrl safe)) «to» amount = .error e →
      sendTransaction ops sender «to» safe amount privKey = (.error e, [.fetchedNonce nonce])) ∧
    (∀ nonce safeTxGas e, getSafeNonce (ops.httpGet (safeNonceUrl safe)) = .ok nonce →
      getGasEstimation (ops.postEstimate (gasEstimationUrl safe)) «to» amount = .ok safeTxGas →
      buildDigest ops (mkGnosisSafeTx ops.hexToAddress sender «to» safe amount safeTxGas nonce) =
        .error e →
      sendTransaction ops sender «to» safe amount privKey =
        (.error e, [.fetchedNonce nonce, .estimatedGas safeTxGas])) ∧
    (∀ nonce safeTxGas digest e, getSafeNonce (ops.httpGet (safeNonceUrl safe)) = .ok nonce →
      getGasEstimation (ops.postEstimate (gasEstimationUrl safe)) «to» amount = .ok safeTxGas →
      buildDigest ops (mkGnosisSafeTx ops.hexToAddress sender «to» safe amount safeTxGas nonce) =
        .ok digest →
      ops.hexToECDSA privKey = .error e →
      sendTransaction ops sender «to» safe amount privKey =
        (.error e, [.fetchedNonce nonce, .estimatedGas safeTxGas,
          .builtDigest (mkGnosisSafeTx ops.hexToAddress sender «to» safe amount safeTxGas nonce)
            digest])) ∧
    (∀ nonce safeTxGas digest key e, getSafeNonce (ops.httpGet (safeNonceUrl safe)) = .ok nonce →
      getGasEstimation (ops.postEstimate (gasEstimationUrl safe)) «to» amount = .ok safeTxGas →
      buildDigest ops (mkGnosisSafeTx ops.hexToAddress sender «to» safe amount safeTxGas nonce) =
        .ok digest →
      ops.hexToECDSA privKey = .ok key →
      ops.sign digest key = .error e →
      sendTransaction ops sender «to» safe amount privKey =
        (.error e, [.fetchedNonce nonce, .estimatedGas safeTxGas,
          .builtDigest (mkGnosisSafeTx ops.hexToAddress sender «to» safe amount safeTxGas nonce)
            digest])) ∧
    (∀ nonce safeTxGas digest key rawSig,
      getSafeNonce (ops.httpGet (safeNonceUrl safe)) = .ok nonce →
      getGasEstimation (ops.postEstimate (gasEstimationUrl safe)) «to» amount = .ok safeTxGas →
      buildDigest ops (mkGnosisSafeTx ops.hexToAddress sender «to» safe amount safeTxGas nonce) =
        .ok digest →
      ops.hexToECDSA privKey = .ok key →
      ops.sign digest key = .ok rawSig →
      sendTransaction ops sender «to» safe amount privKey =
        (sendGnosisTx (ops.postGnosisTx (gnosisTxUrl safe)) sender «to» amount safeTxGas nonce
            (hexEncode digest) (hexEncode (normalizeV rawSig)),
          [.fetchedNonce nonce, .estimatedGas safeTxGas,
            .builtDigest (mkGnosisSafeTx ops.hexToAddress sender «to» safe amount safeTxGas nonce)
              digest,
            .signed digest rawSig,
            .submitted (mkGnosisTxRequest sender «to» amount safeTxGas nonce
              (hexEncode digest) (hexEncode (normalizeV rawSig)))])) := by
  refine ⟨?_, ?_, ?_, ?_, ?_, ?_⟩
  · intro e h1
    simp [sendTransaction, h1]
  · intro nonce e h1 h2
    simp [sendTransaction, h1, h2]
  · intro nonce safeTxGas e h1 h2 h3
    simp [sendTransaction, h1, h2, h3]
  · intro nonce safeTxGas digest e h1 h2 h3 h4
    simp [sendTransaction, h1, h2, h3, h4]
  · intro nonce safeTxGas digest key e h1 h2 h3 h4 h5
    simp [sendTransaction, h1, h2, h3, h4, h5]
  · intro nonce safeTxGas digest key rawSig h1 h2 h3 h4 h5
    simp [sendTransaction, h1, h2, h3, h4, h5]

/-- Witness for C4: a failing nonce fetch makes the run return that
transport error with no later step performed. -/
theorem C4_orchestrator_short_circuit_witness :
    sendTransaction failOps "0xSender" "0xReceiver" "0xSafe" 1000000 "aa" =
      (.error (.transport "connection refused"), []) :=
  (C4_orchestrator_short_circuit failOps "0xSender" "0xReceiver" "0xSafe" 1000000 "aa").1
    (.transport "connection refused") rfl

/-- Claim C5 counterexample: 201 is an HTTP success-class status, yet the
submitter does not return success on it: the code compares the status with
200 only, so on 201 it reads and decodes the body and produces an error. -/
theorem C5_success_status_counterexample :
    specSuccessStatus 201 = true ∧
    handleSubmitResponse
        ⟨201, .ok (.json (.obj [("nonFieldErrors", .arr [.str "rejected"])]))⟩ ≠ .ok () :=
  ⟨rfl, by decide⟩

/-- Claim C5 (amended): for every response whose status is exactly 200
(`http.StatusOK`, the one status the code compares against), the submitter
returns success unconditionally, without reading or inspecting the
response body — even a body whose read fails or that is not JSON. -/
theorem C5_status200_unconditional_success :
    (∀ b : Except GoError Body, handleSubmitResponse ⟨200, b⟩ = .ok ()) ∧
    (∀ (b : Except GoError Body) (sender «to» : String) (amount safeTxGas nonce : Int)
        (hash signature : String),
      sendGnosisTx (fun _ => .ok ⟨200, b⟩) sender «to» amount safeTxGas nonce hash signature =
        .ok ()) :=
  ⟨fun _ => rfl, fun _ _ _ _ _ _ _ _ => rfl⟩

/-- Claim C6: on a non-success status whose body decodes as the structured
error schema, the submitter's error message is the `nonFieldErrors` list
joined with newlines, in order. -/
theorem C6_rejection_message_join (status : Nat) (b : Body) (msgs : List String)
    (sender «to» : String) (amount safeTxGas nonce : Int) (hash signature : String)
    (hstatus : status ≠ 200)
    (hdec : unmarshalBody unmarshalGnosisTxErr b = .ok msgs) :
    handleSubmitResponse ⟨status, .ok b⟩ =
      .error (.errorsNew (String.intercalate "\n" msgs)) ∧
    sendGnosisTx (fun _ => .ok ⟨status, .ok b⟩) sender «to» amount safeTxGas nonce hash signature =
      .error (.errorsNew (String.intercalate "\n" msgs)) := by
  have h1 : handleSubmitResponse ⟨status, .ok b⟩ =
      .error (.errorsNew (String.intercalate "\n" msgs)) := by
    simp [handleSubmitResponse, hstatus, hdec]
  exact ⟨h1, by simp [sendGnosisTx, h1]⟩

/-- Witness for C6: the spec's example body on a 400 response yields the
message "Nonce too low\nInvalid signature". -/
theorem C6_rejection_message_join_witness :
    handleSubmitResponse ⟨400, .ok (.json (.obj [("nonFieldErrors",
        .arr [.str "Nonce too low", .str "Invalid signature"])]))⟩ =
      .error (.errorsNew "Nonce too low\nInvalid signature") :=
  ((C6_rejection_message_join 400
      (.json (.obj [("nonFieldErrors", .arr [.str "Nonce too low", .str "Invalid signature"])]))
      ["Nonce too low", "Invalid signature"] "f" "t" 0 0 0 "h" "s"
      (by decide) rfl).1).trans (by decide)

/-- Claim C7: the gas estimator parses the returned `safeTxGas` field with
`strconv.ParseInt(_, 10, 64)`: a body carrying "21000" yields the integer
21000 (whatever the status), and any string that is not an optionally
signed run of decimal digits makes the step fail with the numeric-parse
syntax error instead of returning a value. -/
theorem C7_gas_estimation_parse :
    (∀ (status : Nat) («to» : String) (value : Int),
      getGasEstimation
          (fun _ => .ok ⟨status, .ok (.json (.obj [("safeTxGas", .str "21000")]))⟩) «to» value =
        .ok 21000) ∧
    (∀ (status : Nat) («to» : String) (value : Int) (s : String), validBase10 s = false →
      getGasEstimation
          (fun _ => .ok ⟨status, .ok (.json (.obj [("safeTxGas", .str s)]))⟩) «to» value =
        .error (.parseIntErr "invalid syntax")) := by
  constructor
  · intro status «to» value
    rfl
  · intro status «to» value s hs
    have hred : getGasEstimation
        (fun _ => .ok ⟨status, .ok (.json (.obj [("safeTxGas", .str s)]))⟩) «to» value =
        parseInt64 s := rfl
    rw [hred, parseInt64_syntax_error s hs]

/-- Witness for C7: "21000" parses to 21000; "abc" is not base-10 and the
step fails with the syntax error. -/
theorem C7_gas_estimation_parse_witness :
    getGasEstimation
        (fun _ => .ok ⟨200, .ok (.json (.obj [("safeTxGas", .str "21000")]))⟩) "0xR" 7 =
      .ok 21000 ∧
    validBase10 "abc" = false ∧
    getGasEstimation
        (fun _ => .ok ⟨400, .ok (.json (.obj [("safeTxGas", .str "abc")]))⟩) "0xR" 7 =
      .error (.parseIntErr "invalid syntax") :=
  ⟨C7_gas_estimation_parse.1 200 "0xR" 7, by decide,
    C7_gas_estimation_parse.2 400 "0xR" 7 "abc" (by decide)⟩

/-- Claim C8: whenever the flow reaches submission, the submitted proposal
carries operation 0, fee token and refund receiver equal to the
zero-address sentinel, gas price 0 and base gas 0, and its sequencing
counter equals the counter placed in the signed transaction record, which
is the value fetched at the start of the flow (hypothesis h1). -/
theorem C8_proposal_invariants (ops : Ops) (sender «to» safe : String)
    (amount : Int) (privKey : String) (nonce safeTxGas : Int)
    (digest rawSig : List Nat) (key : Nat)
    (h1 : getSafeNonce (ops.httpGet (safeNonceUrl safe)) = .ok nonce)
    (h2 : getGasEstimation (ops.postEstimate (gasEstimationUrl safe)) «to» amount = .ok safeTxGas)
    (h3 : buildDigest ops (mkGnosisSafeTx ops.hexToAddress sender «to» safe amount safeTxGas nonce) =
      .ok digest)
    (h4 : ops.hexToECDSA privKey = .ok key)
    (h5 : ops.sign digest key = .ok rawSig) :
    ∃ req : GnosisTxRequest,
      Event.submitted req ∈ (sendTransaction ops sender «to» safe amount privKey).2 ∧
      req.operation = 0 ∧
      req.gasToken = ZERO_ADDR ∧
      req.refundReceiver = ZERO_ADDR ∧
      req.gasPrice = 0 ∧
      req.baseGas = 0 ∧
      req.nonce = nonce ∧
      (mkGnosisSafeTx ops.hexToAddress sender «to» safe amount safeTxGas nonce).nonce = nonce ∧
      (mkGnosisSafeTx ops.hexToAddress sender «to» safe amount safeTxGas nonce).operation = 0 := by
  refine ⟨mkGnosisTxRequest sender «to» amount safeTxGas nonce (hexEncode digest)
    (hexEncode (normalizeV rawSig)), ?_, rfl, rfl, rfl, rfl, rfl, rfl, rfl, rfl⟩
  simp [sendTransaction, h1, h2, h3, h4, h5]

/-- Witness for C8 on the concrete sample environment (nonce 5, safeTxGas
21000). -/
theorem C8_proposal_invariants_witness :
    ∃ req : GnosisTxRequest,
      Event.submitted req ∈
        (sendTransaction sampleOps "0xSender" "0xReceiver" "0xSafe" 1000000 "aa").2 ∧
      req.operation = 0 ∧
      req.gasToken = ZERO_ADDR ∧
      req.refundReceiver = ZERO_ADDR ∧
      req.gasPrice = 0 ∧
      req.baseGas = 0 ∧
      req.nonce = 5 ∧
      (mkGnosisSafeTx sampleOps.hexToAddress "0xSender" "0xReceiver" "0xSafe"
        1000000 21000 5).nonce = 5 ∧
      (mkGnosisSafeTx sampleOps.hexToAddress "0xSender" "0xReceiver" "0xSafe"
        1000000 21000 5).operation = 0 :=
  C8_proposal_invariants sampleOps "0xSender" "0xReceiver" "0xSafe" 1000000 "aa" 5 21000
    sampleDigest sampleRawSig 1 rfl rfl rfl rfl rfl

/-- Claim C9 counterexample: a syntactically valid JSON body whose `nonce`
field holds a string makes the nonce fetch fail with an unmarshal type
error, so success on every valid-JSON body (as the claim states it) does
not hold: decoding also requires the declared fields to have matching
types. -/
theorem C9_valid_json_counterexample :
    getSafeNonce (.ok ⟨200, .ok (.json (.obj [("nonce", .str "5")]))⟩) =
      .error (.unmarshal "cannot unmarshal into int64 field nonce") := by decide

/-- Claim C9 (amended): the nonce-fetch and gas-estimate steps never
inspect the HTTP status code; every ASCII-keyed object body that decodes
into the expected schema (every key matching a declared field — matched
case-insensitively, last duplicate occurrence winning, as `encoding/json`
does — carrying a value of the declared type) succeeds regardless of
status, the estimator then standing or falling with the `safeTxGas`
parse; and a well-typed ASCII-keyed object body with no key matching
`nonce` makes the nonce fetch return 0 without error. -/
theorem C9_amended_status_blind :
    (∀ (s1 s2 : Nat) (b : Except GoError Body),
      getSafeNonce (.ok ⟨s1, b⟩) = getSafeNonce (.ok ⟨s2, b⟩)) ∧
    (∀ (s1 s2 : Nat) (b : Except GoError Body),
      handleGasResponse (.ok ⟨s1, b⟩) = handleGasResponse (.ok ⟨s2, b⟩)) ∧
    (∀ (status : Nat) (fields : List (String × Json)) (data : SafeNonceResponse),
      asciiKeys fields = true →
      unmarshalSafeNonceResponse (.obj fields) = .ok data →
      getSafeNonce (.ok ⟨status, .ok (.json (.obj fields))⟩) = .ok data.nonce) ∧
    (∀ (status : Nat) (fields : List (String × Json)) (data : GasEstimationResponse),
      asciiKeys fields = true →
      unmarshalGasEstimationResponse (.obj fields) = .ok data →
      handleGasResponse (.ok ⟨status, .ok (.json (.obj fields))⟩) = parseInt64 data.safeTxGas) ∧
    (∀ (status : Nat) (fields : List (String × Json)) (data : SafeNonceResponse),
      asciiKeys fields = true →
      unmarshalSafeNonceResponse (.obj fields) = .ok data →
      matchingValues fields "nonce" = [] →
      getSafeNonce (.ok ⟨status, .ok (.json (.obj fields))⟩) = .ok 0) := by
  refine ⟨fun _ _ _ => rfl, fun _ _ _ => rfl, ?_, ?_, ?_⟩
  · intro status fields data _ h
    simp [getSafeNonce, unmarshalBody, h]
  · intro status fields data _ h
    simp [handleGasResponse, unmarshalBody, h]
  · intro status fields data _ h habs
    have hn := unmarshal_nonce_absent fields data h habs
    simp [getSafeNonce, unmarshalBody, h, hn]

/-- Witness for C9 (amended): a well-typed object body without a key
matching `nonce`, on a 500 status, yields nonce 0 without error. -/
theorem C9_amended_status_blind_witness :
    getSafeNonce (.ok ⟨500, .ok (.json (.obj [("address", .str "0xdead")]))⟩) = .ok 0 :=
  C9_amended_status_blind.2.2.2.2 500 [("address", .str "0xdead")]
    ⟨"0xdead", 0, 0, [], "", [], "", "", ""⟩ (by decide) rfl rfl

/-- Claim C10: the submitted proposal is consistent with the signing step:
the run's trace shows the signing primitive applied to exactly `digest`
(hypothesis h5), and the submitted request's `contractTransactionHash` is
the hex encoding of that same `digest` while its `signature` is the hex
encoding of the recovery-id-normalized signature the primitive returned
over it. -/
theorem C10_submission_consistency (ops : Ops) (sender «to» safe : String)
    (amount : Int) (privKey : String) (nonce safeTxGas : Int)
    (digest rawSig : List Nat) (key : Nat)
    (h1 : getSafeNonce (ops.httpGet (safeNonceUrl safe)) = .ok nonce)
    (h2 : getGasEstimation (ops.postEstimate (gasEstimationUrl safe)) «to» amount = .ok safeTxGas)
    (h3 : buildDigest ops (mkGnosisSafeTx ops.hexToAddress sender «to» safe amount safeTxGas nonce) =
      .ok digest)
    (h4 : ops.hexToECDSA privKey = .ok key)
    (h5 : ops.sign digest key = .ok rawSig) :
    sendTransaction ops sender «to» safe amount privKey =
      (sendGnosisTx (ops.postGnosisTx (gnosisTxUrl safe)) sender «to» amount safeTxGas nonce
          (hexEncode digest) (hexEncode (normalizeV rawSig)),
        [.fetchedNonce nonce, .estimatedGas safeTxGas,
          .builtDigest (mkGnosisSafeTx ops.hexToAddress sender «to» safe amount safeTxGas nonce)
            digest,
          .signed digest rawSig,
          .submitted (mkGnosisTxRequest sender «to» amount safeTxGas nonce
            (hexEncode digest) (hexEncode (normalizeV rawSig)))]) ∧
    (mkGnosisTxRequest sender «to» amount safeTxGas nonce
        (hexEncode digest) (hexEncode (normalizeV rawSig))).contractTransactionHash =
      hexEncode digest ∧
    (mkGnosisTxRequest sender «to» amount safeTxGas nonce
        (hexEncode digest) (hexEncode (normalizeV rawSig))).signature =
      hexEncode (normalizeV rawSig) := by
  refine ⟨?_, rfl, rfl⟩
  simp [sendTransaction, h1, h2, h3, h4, h5]

/-- Witness for C10 on the concrete sample environment. -/
theorem C10_submission_consistency_witness :
    sendTransaction sampleOps "0xSender" "0xReceiver" "0xSafe" 1000000 "aa" =
      (sendGnosisTx (sampleOps.postGnosisTx (gnosisTxUrl "0xSafe")) "0xSender" "0xReceiver"
          1000000 21000 5 (hexEncode sampleDigest) (hexEncode (normalizeV sampleRawSig)),
        [.fetchedNonce 5, .estimatedGas 21000,
          .builtDigest (mkGnosisSafeTx sampleOps.hexToAddress "0xSender" "0xReceiver" "0xSafe"
            1000000 21000 5) sampleDigest,
          .signed sampleDigest sampleRawSig,
          .submitted (mkGnosisTxRequest "0xSender" "0xReceiver" 1000000 21000 5
            (hexEncode sampleDigest) (hexEncode (normalizeV sampleRawSig)))]) ∧
    (mkGnosisTxRequest "0xSender" "0xReceiver" 1000000 21000 5
        (hexEncode sampleDigest) (hexEncode (normalizeV sampleRawSig))).contractTransactionHash =
      hexEncode sampleDigest ∧
    (mkGnosisTxRequest "0xSender" "0xReceiver" 1000000 21000 5
        (hexEncode sampleDigest) (hexEncode (normalizeV sampleRawSig))).signature =
      hexEncode (normalizeV sampleRawSig) :=
  C10_submission_consistency sampleOps "0xSender" "0xReceiver" "0xSafe" 1000000 "aa" 5 21000
    sampleDigest sampleRawSig 1 rfl rfl rfl rfl rfl

end GnosisTxCore
